import Mathlib

/-!
Verification of the rdev Windows synthesis engine (`src/windows/simulate.rs`)
and the example grab loop (`examples/test.rs`).

Machine integers are modelled as `Nat`/`Int` with explicit reductions modulo
`2^w` where the source's fixed-width arithmetic can wrap.  Rust release-profile
semantics are used for arithmetic overflow (two's-complement wrapping), and
`as` casts wrap/sign-extend exactly as in Rust.  A `try_into().unwrap()` that
fails is modelled as a distinct `panicked` outcome.

OS facilities (`GetKeyboardLayout`, `MapVirtualKeyExW`, `VkKeyScanW`,
`GetSystemMetrics`, `SendInput`) are modelled as an explicit environment
record `WinEnv`: the code under verification is a deterministic function of
the event and of the OS's answers.
-/

namespace Rdev

/-- Two's-complement wrap of an integer into the signed 16-bit range
`[-2^15, 2^15)`; models Rust release-profile `i16` overflow. -/
def wrap16 (n : Int) : Int := (n + 2 ^ 15) % 2 ^ 16 - 2 ^ 15

/-- Two's-complement wrap of an integer into the signed 32-bit range
`[-2^31, 2^31)`; models Rust release-profile `i32` overflow. -/
def wrap32 (n : Int) : Int := (n + 2 ^ 31) % 2 ^ 32 - 2 ^ 31

/-- The bit pattern of a signed value reinterpreted as `u32`
(Rust `as u32` on a signed integer: sign-extend, then reinterpret). -/
def toU32 (n : Int) : Nat := (n % 2 ^ 32).toNat

/-- `i16::try_from` succeeds exactly on this range (`c_short::try_from` in the
wheel branch of `simulate`). -/
def fitsI16 (n : Int) : Prop := -(2 ^ 15) ≤ n ∧ n < 2 ^ 15

instance (n : Int) : Decidable (fitsI16 n) := by unfold fitsI16; infer_instance

/-- A representative of rdev's closed `Key` enumeration.  The full enumeration
lives in the library's `rdev.rs`, which is not among the sources; the spec
treats it as an opaque closed enumeration, so a small concrete closed
enumeration stands in for it.  Every per-key native code is supplied by the
environment, never derived from this list. -/
inductive Key
  | Alt
  | MetaLeft
  | ControlLeft
  | KeyA
  | KeyB
  deriving DecidableEq, Repr

/-- rdev's `Button`: `Unknown` carries the extra-button number (`u8`). -/
inductive Button
  | Left
  | Middle
  | Right
  | Unknown (code : Nat)
  deriving DecidableEq, Repr

/-- rdev's `EventType`.  `Wheel` deltas are `i64` in the source, modelled as
unbounded `Int`.  `MouseMove` coordinates are `f64` in the source and are
immediately truncated to `i32` by `simulate`; the integer value after that
cast is what the model takes as input. -/
inductive EventType
  | KeyPress (key : Key)
  | KeyRelease (key : Key)
  | ButtonPress (button : Button)
  | ButtonRelease (button : Button)
  | Wheel (delta_x delta_y : Int)
  | MouseMove (x y : Int)
  deriving DecidableEq, Repr

/-- `SimulateError` (unit struct in the source). -/
inductive SimulateError
  | mk
  deriving DecidableEq, Repr

-- Windows constants, values as imported from winapi in the source.
def KEYEVENTF_KEYUP : Nat := 0x0002
def KEYEVENTF_KEYDOWN : Nat := 0
def KEYDOWN : Nat := 0
def KEYUP : Nat := 0x0002
def UNICODE : Nat := 0x0004
def MOUSEEVENTF_MOVE : Nat := 0x0001
def MOUSEEVENTF_LEFTDOWN : Nat := 0x0002
def MOUSEEVENTF_LEFTUP : Nat := 0x0004
def MOUSEEVENTF_RIGHTDOWN : Nat := 0x0008
def MOUSEEVENTF_RIGHTUP : Nat := 0x0010
def MOUSEEVENTF_MIDDLEDOWN : Nat := 0x0020
def MOUSEEVENTF_MIDDLEUP : Nat := 0x0040
def MOUSEEVENTF_XDOWN : Nat := 0x0080
def MOUSEEVENTF_XUP : Nat := 0x0100
def MOUSEEVENTF_WHEEL : Nat := 0x0800
def MOUSEEVENTF_HWHEEL : Nat := 0x1000
def MOUSEEVENTF_VIRTUALDESK : Nat := 0x4000
def MOUSEEVENTF_ABSOLUTE : Nat := 0x8000
def WHEEL_DELTA : Int := 120
def VK_HANGUL : Nat := 0x15

/-- The fields of a `MOUSEINPUT` that the code under test sets (besides the
always-zero `time`/`dwExtraInfo`). -/
structure MOUSEINPUT where
  dx : Int
  dy : Int
  mouseData : Nat
  dwFlags : Nat
  deriving DecidableEq, Repr

/-- The fields of a `KEYBDINPUT` that the code under test sets. -/
structure KEYBDINPUT where
  wVk : Nat
  wScan : Nat
  dwFlags : Nat
  deriving DecidableEq, Repr

/-- One `SendInput` call, as issued by `sim_mouse_event` / `sim_keyboard_event`. -/
inductive InputCall
  | mouse (mi : MOUSEINPUT)
  | keyboard (ki : KEYBDINPUT)
  deriving DecidableEq, Repr

/-- The observable outcome of one `simulate` invocation: `Ok(())`,
`Err(SimulateError)`, or a Rust panic (from an `unwrap`). -/
inductive SimOutcome
  | ok
  | simErr
  | panicked
  deriving DecidableEq, Repr

/-- Trace of one `simulate` invocation: the `SendInput` calls issued, in
order, and the final outcome. -/
structure SimTrace where
  calls : List InputCall
  outcome : SimOutcome
  deriving DecidableEq, Repr

/-- The OS answers a `simulate` invocation can observe.
`getWinCodes` models `crate::windows::keycodes::get_win_codes` (that table is
not among the sources; the claims quantify over its output).  `sendInput n`
tells whether the `n`-th `SendInput` call of this invocation returns 1. -/
structure WinEnv where
  layout : Nat
  getWinCodes : Key → Nat × Nat
  mapVirtualKeyExW : Nat → Nat → Nat
  vkKeyScanW : Char → Int
  metricW : Int
  metricH : Int
  sendInput : Nat → Bool

/-- The virtual code resolved by the `EventType::KeyPress` arm of `simulate`
(source lines 84-100): Hangul override when the tabulated code is 165 and the
low word of the layout is 0x0412; otherwise 165 stays 165; otherwise a
non-zero scan code is converted through `MapVirtualKeyExW`; otherwise the
tabulated code. -/
def keyPressCode (env : WinEnv) (key : Key) : Nat :=
  let codes := env.getWinCodes key
  let code := codes.1
  let scancode := codes.2
  if code = 165 ∧ env.layout % 2 ^ 16 = 0x0412 then VK_HANGUL
  else if code = 165 then 165
  else if scancode ≠ 0 then env.mapVirtualKeyExW scancode env.layout
  else code

/-- The virtual code resolved by the `EventType::KeyRelease` arm of `simulate`
(source lines 103-117): no Hangul check on this path. -/
def keyReleaseCode (env : WinEnv) (key : Key) : Nat :=
  let codes := env.getWinCodes key
  let code := codes.1
  let scancode := codes.2
  if code = 165 then 165
  else if scancode ≠ 0 then env.mapVirtualKeyExW scancode env.layout
  else code

/-- `(c_short::try_from(delta)? * WHEEL_DELTA) as u32`: the `i16` product
wraps (release profile), then sign-extends into a `u32` `mouseData`. -/
def wheelData (delta : Int) : Nat := toU32 (wrap16 (delta * WHEEL_DELTA))

/-- Keyboard leg shared by both key arms: panic when the resolved `u32` code
does not fit the `WORD` argument (`code.try_into().unwrap()`), otherwise one
`SendInput` with scan 0. -/
def keyLeg (env : WinEnv) (flags : Nat) (code : Nat) : SimTrace :=
  if code < 2 ^ 16 then
    { calls := [InputCall.keyboard ⟨code, 0, flags⟩],
      outcome := if env.sendInput 0 then .ok else .simErr }
  else
    { calls := [], outcome := .panicked }

/-- Shallow embedding of `pub fn simulate` (`src/windows/simulate.rs`,
lines 82-167).  Every branch mirrors the source arm for arm; in the
`Button::Unknown` arms the extra-button number is passed as the `dy`
argument of `sim_mouse_event` with `data = 0`, exactly as in the source. -/
def simulate (env : WinEnv) (event_type : EventType) : SimTrace :=
  match event_type with
  | EventType.KeyPress key =>
      keyLeg env KEYEVENTF_KEYDOWN (keyPressCode env key)
  | EventType.KeyRelease key =>
      keyLeg env KEYEVENTF_KEYUP (keyReleaseCode env key)
  | EventType.ButtonPress button =>
      match button with
      | Button.Left =>
          { calls := [InputCall.mouse ⟨0, 0, 0, MOUSEEVENTF_LEFTDOWN⟩],
            outcome := if env.sendInput 0 then .ok else .simErr }
      | Button.Middle =>
          { calls := [InputCall.mouse ⟨0, 0, 0, MOUSEEVENTF_MIDDLEDOWN⟩],
            outcome := if env.sendInput 0 then .ok else .simErr }
      | Button.Right =>
          { calls := [InputCall.mouse ⟨0, 0, 0, MOUSEEVENTF_RIGHTDOWN⟩],
            outcome := if env.sendInput 0 then .ok else .simErr }
      | Button.Unknown code =>
          { calls := [InputCall.mouse ⟨0, (code : Int), 0, MOUSEEVENTF_XDOWN⟩],
            outcome := if env.sendInput 0 then .ok else .simErr }
  | EventType.ButtonRelease button =>
      match button with
      | Button.Left =>
          { calls := [InputCall.mouse ⟨0, 0, 0, MOUSEEVENTF_LEFTUP⟩],
            outcome := if env.sendInput 0 then .ok else .simErr }
      | Button.Middle =>
          { calls := [InputCall.mouse ⟨0, 0, 0, MOUSEEVENTF_MIDDLEUP⟩],
            outcome := if env.sendInput 0 then .ok else .simErr }
      | Button.Right =>
          { calls := [InputCall.mouse ⟨0, 0, 0, MOUSEEVENTF_RIGHTUP⟩],
            outcome := if env.sendInput 0 then .ok else .simErr }
      | Button.Unknown code =>
          { calls := [InputCall.mouse ⟨0, (code : Int), 0, MOUSEEVENTF_XUP⟩],
            outcome := if env.sendInput 0 then .ok else .simErr }
  | EventType.Wheel delta_x delta_y =>
      if delta_x ≠ 0 then
        if fitsI16 delta_x then
          let c0 := InputCall.mouse ⟨0, 0, wheelData delta_x, MOUSEEVENTF_HWHEEL⟩
          if env.sendInput 0 then
            if delta_y ≠ 0 then
              if fitsI16 delta_y then
                let c1 := InputCall.mouse ⟨0, 0, wheelData delta_y, MOUSEEVENTF_WHEEL⟩
                { calls := [c0, c1],
                  outcome := if env.sendInput 1 then .ok else .simErr }
              else { calls := [c0], outcome := .simErr }
            else { calls := [c0], outcome := .ok }
          else { calls := [c0], outcome := .simErr }
        else { calls := [], outcome := .simErr }
      else
        if delta_y ≠ 0 then
          if fitsI16 delta_y then
            let c1 := InputCall.mouse ⟨0, 0, wheelData delta_y, MOUSEEVENTF_WHEEL⟩
            { calls := [c1], outcome := if env.sendInput 0 then .ok else .simErr }
          else { calls := [], outcome := .simErr }
        else { calls := [], outcome := .ok }
  | EventType.MouseMove x y =>
      if env.metricW = 0 ∨ env.metricH = 0 then
        { calls := [], outcome := .simErr }
      else
        let nx := Int.tdiv (wrap32 (wrap32 (x + 1) * 65535)) env.metricW
        let ny := Int.tdiv (wrap32 (wrap32 (y + 1) * 65535)) env.metricH
        { calls := [InputCall.mouse
            ⟨nx, ny, 0, MOUSEEVENTF_MOVE ||| MOUSEEVENTF_ABSOLUTE ||| MOUSEEVENTF_VIRTUALDESK⟩],
          outcome := if env.sendInput 0 then .ok else .simErr }

/-- Shallow embedding of `pub fn simulate_char` (source lines 169-180).
`res` is the `i16` returned by `VkKeyScanW`; `bits` is its two's-complement
bit pattern, so `bits / 256 % 256` is Rust's `(res >> 8) & 0xFF` and
`bits % 256` is `res & 0xFF`. -/
def simulate_char (env : WinEnv) (chr : Char) (pressed : Bool) : SimTrace :=
  let res : Int := env.vkKeyScanW chr
  let bits : Nat := (res % 2 ^ 16).toNat
  let vsf : Nat × Nat × Nat :=
    if bits / 256 % 256 = 0 then (bits % 256, 0, 0)
    else (0, chr.toNat % 2 ^ 16, UNICODE)
  let state_flags := if pressed then KEYDOWN else KEYUP
  { calls := [InputCall.keyboard ⟨vsf.1, vsf.2.1, vsf.2.2 ||| state_flags⟩],
    outcome := if env.sendInput 0 then .ok else .simErr }

/-!
Embedding of the example grab loop (`examples/test.rs`).  The X11 facilities
(`XGrabKey`, `XUngrabKey`, `XNextEvent`) are modelled as a trace of issued
calls and a list of pending native events; `linux_keycode_from_key(_).unwrap_or_default()`
and `key_from_scancode` live in the library (not among the sources) and are
supplied as environment functions.  The `GRABED` registry (a mutex-guarded
`HashSet<Key>`) is modelled as a duplicate-free `List Key` under set
membership; `SystemTime::now()` is not modelled (no claim reads `time`).
-/

/-- rdev's `Event` as built by `convert_event` in `examples/test.rs`
(the `time` field is omitted, see above). -/
structure Event where
  event_type : EventType
  name : Option String
  code : Int
  scan_code : Int

/-- `convert_event(key, is_press)` (`examples/test.rs` lines 29-41):
`keycodeOf` models `linux_keycode_from_key(key).unwrap_or_default()`. -/
def convert_event (keycodeOf : Key → Nat) (key : Key) (is_press : Bool) : Event :=
  { event_type := if is_press then EventType.KeyPress key else EventType.KeyRelease key,
    name := none,
    code := (keycodeOf key : Int),
    scan_code := (keycodeOf key : Int) }

/-- An X11 call issued by the grab loop: `XGrabKey` or `XUngrabKey` for a
native keycode. -/
inductive XCall
  | grabKey (keycode : Int)
  | ungrabKey (keycode : Int)
  deriving DecidableEq, Repr

/-- `is_key_grabed(key)` (`examples/test.rs` lines 73-75): membership in the
`GRABED` registry. -/
def is_key_grabed (grabed : List Key) (key : Key) : Bool := grabed.contains key

/-- One iteration of the `grab_keys` loop body (`examples/test.rs`
lines 78-93) acting on (registry, X-call trace).  When the callback swallows
the hypothetical press and the key is not already registered, `grab_key` is
called; the following `GRABED.lock().unwrap().insert(key)` is commented out
in the source, so the registry is left unchanged. -/
def grab_keys_step (callback : Event → Option Event) (keycodeOf : Key → Nat)
    (acc : List Key × List XCall) (key : Key) : List Key × List XCall :=
  let event := convert_event keycodeOf key true
  let grab := (callback event).isNone
  let keycode : Int := (keycodeOf key : Int)
  if grab && !(is_key_grabed acc.1 key) then
    (acc.1, acc.2 ++ [XCall.grabKey keycode])
  else acc

/-- `grab_keys(display, grab_window)` (`examples/test.rs` lines 77-94):
iterate the key enumeration, returning the updated registry and the X calls
issued. -/
def grab_keys (callback : Event → Option Event) (keycodeOf : Key → Nat)
    (keys : List Key) (grabed : List Key) : List Key × List XCall :=
  keys.foldl (grab_keys_step callback keycodeOf) (grabed, [])

/-- One iteration of the `ungrab_keys` loop body (`examples/test.rs`
lines 49-57): as written, for every key currently in the registry it calls
`grab_key` (not `ungrab_key`) and then inserts the key into the registry. -/
def ungrab_keys_step (keycodeOf : Key → Nat)
    (acc : List Key × List XCall) (key : Key) : List Key × List XCall :=
  let keycode : Int := (keycodeOf key : Int)
  if is_key_grabed acc.1 key then
    (acc.1.insert key, acc.2 ++ [XCall.grabKey keycode])
  else acc

/-- `ungrab_keys(display, grab_window)` (`examples/test.rs` lines 49-57). -/
def ungrab_keys (keycodeOf : Key → Nat) (keys : List Key) (grabed : List Key) :
    List Key × List XCall :=
  keys.foldl (ungrab_keys_step keycodeOf) (grabed, [])

/-- A pending native X event, as read by the listening loop:
`x_event.key.keycode` and `x_event.type_`. -/
structure NativeEvent where
  keycode : Nat
  type_ : Int

def KEYPRESS_EVENT : Int := 2

/-- The inner listening loop of `set_key_hook` (`examples/test.rs`
lines 129-144).  Each iteration first reads the `IS_GRAB` flag (the `Bool` of
the pair): on `false` it breaks before fetching another event; otherwise
`XNextEvent` yields the pending native event, which is translated with
`key_from_scancode` (environment function `keyOfScancode`) and the native
event's own type field, and handed to the callback.  Returned: the events
delivered to the callback, in order.  The loop body issues no X grab or
ungrab call, and neither does the code after the loop (the thread ends and
is joined, `examples/test.rs` lines 144-147). -/
def listen_loop (keyOfScancode : Nat → Key) (keycodeOf : Key → Nat) :
    List (Bool × NativeEvent) → List Event
  | [] => []
  | (flag, ne) :: rest =>
      if !flag then []
      else
        let key := keyOfScancode ne.keycode
        let is_press := ne.type_ == KEYPRESS_EVENT
        let event := convert_event keycodeOf key is_press
        event :: listen_loop keyOfScancode keycodeOf rest

/-- The whole body of the hook thread spawned by `set_key_hook`
(`examples/test.rs` lines 123-145): one `grab_keys` pass, then the listening
loop until the flag is observed `false`.  Result: final registry, full trace
of X grab/ungrab calls issued by the thread, and the events delivered to the
callback by the listening loop.  The only X grab/ungrab calls in the thread
body are those of `grab_keys`; no release call exists on the exit path. -/
def hook_thread (callback : Event → Option Event) (keyOfScancode : Nat → Key)
    (keycodeOf : Key → Nat) (keys : List Key) (grabed : List Key)
    (iterations : List (Bool × NativeEvent)) :
    List Key × List XCall × List Event :=
  let g := grab_keys callback keycodeOf keys grabed
  (g.1, g.2, listen_loop keyOfScancode keycodeOf iterations)

/-! Claim-side definitions (written from the spec's words, to be compared
with the source embedding) and concrete instantiations used by the theorems. -/

/-- Is a `SendInput` call a horizontal-wheel injection? -/
def isHorizontalWheel (c : InputCall) : Bool :=
  match c with
  | .mouse mi => mi.dwFlags == MOUSEEVENTF_HWHEEL
  | .keyboard _ => false

/-- Is a `SendInput` call a vertical-wheel injection? -/
def isVerticalWheel (c : InputCall) : Bool :=
  match c with
  | .mouse mi => mi.dwFlags == MOUSEEVENTF_WHEEL
  | .keyboard _ => false

/-- The virtual-code resolution rule as the amended scan-code-precedence
claim words it: tabulated code 165 is kept, except that a key press under a
layout whose low word is 0x0412 forces `VK_HANGUL`; otherwise a non-zero
tabulated scan code is authoritative through `MapVirtualKeyExW`; otherwise
the tabulated virtual code is used. -/
def claimedVk (env : WinEnv) (press : Bool) (key : Key) : Nat :=
  let code := (env.getWinCodes key).1
  let scan := (env.getWinCodes key).2
  if code = 165 then
    if press ∧ env.layout % 2 ^ 16 = 0x0412 then VK_HANGUL else 165
  else if scan ≠ 0 then env.mapVirtualKeyExW scan env.layout
  else code

/-- The keyboard injection `simulate_char` performs, as the amended claim
words it: a zero shift-state byte in the `VkKeyScanW` result gives a normal
key event carrying the virtual-key byte; any non-zero shift-state byte
(including the unresolvable result -1) gives a raw Unicode injection with
zero virtual key and the `KEYEVENTF_UNICODE` flag; the down/up flag comes
only from `pressed`. -/
def claimedCharInjection (env : WinEnv) (chr : Char) (pressed : Bool) : KEYBDINPUT :=
  let bits : Nat := ((env.vkKeyScanW chr) % 2 ^ 16).toNat
  let state := if pressed then KEYDOWN else KEYUP
  if bits / 256 % 256 = 0 then ⟨bits % 256, 0, state⟩
  else ⟨0, chr.toNat % 2 ^ 16, UNICODE ||| state⟩

/-- The mouse-move normalization formula as the claim states it:
`normalized = (coordinate + 1) * 65535 / screen_dimension`, integer
multiplication (unbounded) then integer division (truncating, as in Rust). -/
def claimedNormalize (coordinate dimension : Int) : Int :=
  Int.tdiv ((coordinate + 1) * 65535) dimension

/-- The combined `MOUSEEVENTF` flags of a mouse-move injection. -/
def moveFlags : Nat := MOUSEEVENTF_MOVE ||| MOUSEEVENTF_ABSOLUTE ||| MOUSEEVENTF_VIRTUALDESK

/-- The callback of the callback-swallow scenario: `None` exactly for
`KeyPress(Alt)`, `Some(event)` for every other event. -/
def cbSwallowAlt (e : Event) : Option Event :=
  match e.event_type with
  | EventType.KeyPress Key.Alt => none
  | _ => some e

/-- A concrete native keycode assignment for the representative keys
(standing in for `linux_keycode_from_key(_).unwrap_or_default()`). -/
def kcodeOf : Key → Nat
  | .Alt => 64
  | .MetaLeft => 133
  | .ControlLeft => 37
  | .KeyA => 38
  | .KeyB => 56

/-- The representative key enumeration, in iteration order. -/
def allKeys : List Key := [.Alt, .MetaLeft, .ControlLeft, .KeyA, .KeyB]

/-- A concrete reverse mapping standing in for `key_from_scancode`. -/
def keyOfScan (n : Nat) : Key :=
  if n = 64 then .Alt
  else if n = 133 then .MetaLeft
  else if n = 37 then .ControlLeft
  else if n = 38 then .KeyA
  else .KeyB

/-- A concrete OS environment in which every `SendInput` succeeds. -/
def envW : WinEnv :=
  { layout := 0x04090409,
    getWinCodes := fun _ => (30, 5),
    mapVirtualKeyExW := fun s _ => s + 1,
    vkKeyScanW := fun _ => 0x41,
    metricW := 1,
    metricH := 1,
    sendInput := fun _ => true }

/-- A concrete environment under a Korean layout (low word 0x0412) whose
translator tabulates the AltGr virtual code 165. -/
def envKr : WinEnv :=
  { envW with layout := 0x04120412, getWinCodes := fun _ => (165, 7) }

/-- A concrete environment whose `VkKeyScanW` answers 0x0141: virtual key
0x41 with shift state 1 (a resolvable character that needs Shift). -/
def envShifted : WinEnv :=
  { envW with vkKeyScanW := fun _ => 0x0141 }

/-- A concrete environment reporting a zero-width virtual screen. -/
def envZeroW : WinEnv :=
  { envW with metricW := 0 }

/-- A concrete environment in which every `SendInput` fails. -/
def envFail : WinEnv :=
  { envW with sendInput := fun _ => false }

/-- A concrete environment whose tabulated virtual code does not fit in a
`WORD`. -/
def envBig : WinEnv :=
  { envW with getWinCodes := fun _ => (2 ^ 16, 0) }

/-! Theorems settling the claims. -/

/-- C1.  After one full `Grabbing` pass, from an empty registry, driven by a
callback returning `None` exactly for `KeyPress(Alt)`: the OS is asked to
grab Alt's native code (and nothing else), yet the registry remains empty —
Alt is NOT a member, because the insert after the successful grab call is
commented out in `grab_keys`.  The claimed registry invariant (membership
iff a grab call was issued) fails on the code at this input. -/
theorem c1_registry_never_updated :
    (grab_keys cbSwallowAlt kcodeOf allKeys []).2 = [XCall.grabKey 64] ∧
    (grab_keys cbSwallowAlt kcodeOf allKeys []).1 = [] ∧
    is_key_grabed (grab_keys cbSwallowAlt kcodeOf allKeys []).1 Key.Alt = false := by
  refine ⟨rfl, rfl, rfl⟩

/-- C2.  Cancellation does exit the listening loop after at most the one
in-flight event (first two conjuncts), but no OS-level grab is released: the
whole hook-thread trace for a session that grabbed Alt and was then
cancelled contains a grab call and no ungrab call (third conjunct), and the
function named `ungrab_keys` itself issues a grab call, not an ungrab call,
for a grabbed key (fourth conjunct). -/
theorem c2_no_release_on_cancellation :
    (listen_loop keyOfScan kcodeOf
        [(true, ⟨38, 2⟩), (false, ⟨56, 2⟩), (true, ⟨56, 2⟩)]).length = 1 ∧
    listen_loop keyOfScan kcodeOf [(false, ⟨38, 2⟩)] = [] ∧
    (hook_thread cbSwallowAlt keyOfScan kcodeOf allKeys [] [(false, ⟨38, 2⟩)]).2.1 =
      [XCall.grabKey 64] ∧
    ungrab_keys kcodeOf allKeys [Key.Alt] = ([Key.Alt], [XCall.grabKey 64]) := by
  refine ⟨rfl, rfl, rfl, rfl⟩

/-- C4.  For `ButtonPress(Unknown(5))` and `ButtonRelease(Unknown(5))` the
single injection does carry the XDOWN/XUP flag, but the extra-button number
is passed as the `dy` movement field of the injected `MOUSEINPUT` while its
`mouseData` field is 0 — the arguments to `sim_mouse_event` are in the wrong
order, so the claimed injection (mouseData = code, dx = dy = 0) is not what
the code issues. -/
theorem c4_unknown_button_code_in_dy :
    simulate envW (.ButtonPress (.Unknown 5)) =
      ⟨[InputCall.mouse ⟨0, 5, 0, MOUSEEVENTF_XDOWN⟩], .ok⟩ ∧
    simulate envW (.ButtonRelease (.Unknown 5)) =
      ⟨[InputCall.mouse ⟨0, 5, 0, MOUSEEVENTF_XUP⟩], .ok⟩ ∧
    (5 : Nat) ≠ 0 := by
  refine ⟨rfl, rfl, by decide⟩

/-- C8.  If the queried virtual-screen width or height is zero, `MouseMove`
synthesis returns `SimulateError` and issues no injection call at all. -/
theorem c8_zero_screen_guard (x y : Int) (env : WinEnv)
    (h : env.metricW = 0 ∨ env.metricH = 0) :
    simulate env (.MouseMove x y) = ⟨[], .simErr⟩ := by
  simp only [simulate, if_pos h]

/-- C8 witness: zero width, concrete coordinates. -/
theorem c8_zero_screen_guard_witness :
    simulate envZeroW (.MouseMove 3 4) = ⟨[], .simErr⟩ :=
  c8_zero_screen_guard 3 4 envZeroW (Or.inl rfl)

/-- C3 counterexample.  For `Wheel{delta_x: 300, delta_y: 0}` the delta fits
`i16` but the product `300 * WHEEL_DELTA = 36000` does not; `simulate` does
not return `SimulateError` — it succeeds and injects the 16-bit-wrapped,
sign-extended tick value 4294937760 instead of the true scaled value
36000. -/
theorem c3_cex_product_overflow_wraps :
    ¬ fitsI16 (300 * WHEEL_DELTA) ∧
    simulate envW (.Wheel 300 0) =
      ⟨[InputCall.mouse ⟨0, 0, 4294937760, MOUSEEVENTF_HWHEEL⟩], .ok⟩ ∧
    (4294937760 : Nat) ≠ toU32 (300 * WHEEL_DELTA) := by
  refine ⟨by decide, rfl, by decide⟩

/-- C3 amended.  A delta value that itself cannot be represented in `i16`
yields `SimulateError` (with no call at all when it is the horizontal one,
and in every case an error outcome); but the product with the wheel-unit
constant is not range-checked: it is computed in 16-bit wrapping arithmetic,
so an in-range delta whose product overflows injects the wrapped product
(`wheelData`). -/
theorem c3_delta_checked_product_wraps :
    (∀ dx dy : Int, ∀ env : WinEnv, dx ≠ 0 → ¬ fitsI16 dx →
       simulate env (.Wheel dx dy) = ⟨[], .simErr⟩) ∧
    (∀ dx dy : Int, ∀ env : WinEnv, dy ≠ 0 → ¬ fitsI16 dy →
       (simulate env (.Wheel dx dy)).outcome = .simErr) ∧
    (∀ dx dy : Int, ∀ env : WinEnv, dx ≠ 0 → fitsI16 dx →
       (simulate env (.Wheel dx dy)).calls.head? =
         some (InputCall.mouse ⟨0, 0, wheelData dx, MOUSEEVENTF_HWHEEL⟩)) := by
  refine ⟨?_, ?_, ?_⟩
  · intro dx dy env h1 h2
    simp only [simulate]
    rw [if_pos h1, if_neg h2]
  · intro dx dy env h1 h2
    simp only [simulate]
    split_ifs <;> simp_all
  · intro dx dy env h1 h2
    simp only [simulate]
    split_ifs <;> simp_all

/-- C3 witness: concrete applications of the amended theorem — delta 40000
is rejected with no call, a vertical delta 40000 gives an error outcome, and
in-range delta 300 heads the trace with the wrapped product. -/
theorem c3_delta_checked_product_wraps_witness :
    simulate envW (.Wheel 40000 1) = ⟨[], .simErr⟩ ∧
    (simulate envW (.Wheel 1 40000)).outcome = .simErr ∧
    (simulate envW (.Wheel 300 0)).calls.head? =
      some (InputCall.mouse ⟨0, 0, 4294937760, MOUSEEVENTF_HWHEEL⟩) := by
  refine ⟨c3_delta_checked_product_wraps.1 40000 1 envW (by decide) (by decide),
          c3_delta_checked_product_wraps.2.1 1 40000 envW (by decide) (by decide),
          ?_⟩
  have h := c3_delta_checked_product_wraps.2.2 300 0 envW (by decide) (by decide)
  rw [h]; decide

/-- C5 counterexample.  Under a keyboard layout whose low word is 0x0412
(Korean), a key whose tabulated virtual code is the AltGr code 165 is
injected on key press with `VK_HANGUL` (0x15), not with the fixed code 165
that the claim promises for every event. -/
theorem c5_cex_hangul_overrides_altgr :
    (envKr.getWinCodes Key.Alt).1 = 165 ∧
    simulate envKr (.KeyPress .Alt) =
      ⟨[InputCall.keyboard ⟨VK_HANGUL, 0, KEYEVENTF_KEYDOWN⟩], .ok⟩ ∧
    VK_HANGUL ≠ 165 := by
  refine ⟨rfl, rfl, by decide⟩

/-- C5 amended.  The injected virtual code follows `claimedVk`: tabulated
code 165 stays 165 except that a key press under a layout with low word
0x0412 forces `VK_HANGUL`; otherwise a non-zero tabulated scan code is
authoritative through `MapVirtualKeyExW`; otherwise the tabulated virtual
code is used (stated for resolved codes that fit the injected `WORD`). -/
theorem c5_scan_code_precedence (env : WinEnv) (key : Key) :
    (claimedVk env true key < 2 ^ 16 →
      (simulate env (.KeyPress key)).calls =
        [InputCall.keyboard ⟨claimedVk env true key, 0, KEYEVENTF_KEYDOWN⟩]) ∧
    (claimedVk env false key < 2 ^ 16 →
      (simulate env (.KeyRelease key)).calls =
        [InputCall.keyboard ⟨claimedVk env false key, 0, KEYEVENTF_KEYUP⟩]) := by
  have hp : claimedVk env true key = keyPressCode env key := by
    simp only [claimedVk, keyPressCode]
    by_cases h1 : (env.getWinCodes key).1 = 165 <;>
      by_cases h2 : env.layout % 2 ^ 16 = 0x0412 <;>
      simp [h1, h2]
  have hr : claimedVk env false key = keyReleaseCode env key := by
    simp only [claimedVk, keyReleaseCode]
    by_cases h1 : (env.getWinCodes key).1 = 165 <;> simp [h1]
  constructor
  · intro h
    rw [hp] at h ⊢
    simp only [simulate, keyLeg, if_pos h]
  · intro h
    rw [hr] at h ⊢
    simp only [simulate, keyLeg, if_pos h]

/-- C5 witness: in `envW` the tabulated code is 30 with scan code 5, so the
injected virtual code is `MapVirtualKeyExW`'s answer 6 on both press and
release. -/
theorem c5_scan_code_precedence_witness :
    (simulate envW (.KeyPress .KeyA)).calls =
      [InputCall.keyboard ⟨6, 0, KEYEVENTF_KEYDOWN⟩] ∧
    (simulate envW (.KeyRelease .KeyA)).calls =
      [InputCall.keyboard ⟨6, 0, KEYEVENTF_KEYUP⟩] := by
  constructor
  · have h := (c5_scan_code_precedence envW .KeyA).1 (by decide)
    rw [h]; decide
  · have h := (c5_scan_code_precedence envW .KeyA).2 (by decide)
    rw [h]; decide

/-- C6 counterexample.  `VkKeyScanW` answers 0x0141 for the character:
resolvable (not -1), virtual-key byte 0x41, shift-state byte 1.  The claim
promises a normal key event using that virtual key, but `simulate_char`
injects raw Unicode: virtual key 0 (not 0x41) with the KEYEVENTF_UNICODE
flag. -/
theorem c6_cex_shifted_char_goes_unicode :
    envShifted.vkKeyScanW 'A' ≠ -1 ∧
    ((envShifted.vkKeyScanW 'A') % 2 ^ 16).toNat % 256 = 0x41 ∧
    simulate_char envShifted 'A' true =
      ⟨[InputCall.keyboard ⟨0, 65, UNICODE⟩], .ok⟩ ∧
    (0 : Nat) ≠ 0x41 := by
  refine ⟨by decide, by decide, rfl, by decide⟩

/-- C6 amended.  The injected keyboard event is exactly
`claimedCharInjection`: a zero shift-state byte in the `VkKeyScanW` result
gives a normal key event with that virtual-key byte; any non-zero
shift-state byte (a character needing modifiers, or the unresolvable result
-1) gives raw Unicode with zero virtual key and the KEYEVENTF_UNICODE flag;
the down/up bit of the injected flags is determined solely by `pressed`. -/
theorem c6_char_resolution (env : WinEnv) (chr : Char) (pressed : Bool) :
    (simulate_char env chr pressed).calls =
      [InputCall.keyboard (claimedCharInjection env chr pressed)] ∧
    ((claimedCharInjection env chr pressed).dwFlags &&& KEYEVENTF_KEYUP =
      if pressed then 0 else KEYEVENTF_KEYUP) := by
  constructor
  · cases pressed <;>
      simp only [simulate_char, claimedCharInjection, KEYDOWN, KEYUP, UNICODE] <;>
      split_ifs <;>
      simp_all
  · cases pressed <;>
      simp only [claimedCharInjection, KEYDOWN, KEYUP, UNICODE, KEYEVENTF_KEYUP] <;>
      split_ifs <;>
      first
        | decide
        | (simp_all; decide)
        | simp_all

/-- C9 counterexample.  On a 1-by-1 virtual screen with x = 32768 the claimed
value `(x + 1) * 65535 / width` is 2147516415, but `(x + 1) * 65535` does not
fit a signed 32-bit integer, so the code's i32 arithmetic wraps and the
injected dx is -2147450881. -/
theorem c9_cex_i32_wrap :
    simulate envW (.MouseMove 32768 0) =
      ⟨[InputCall.mouse ⟨-2147450881, 65535, 0, moveFlags⟩], .ok⟩ ∧
    claimedNormalize 32768 envW.metricW = 2147516415 ∧
    (-2147450881 : Int) ≠ 2147516415 := by
  refine ⟨rfl, rfl, by decide⟩

/-- C9 amended.  With non-zero screen dimensions, the injected coordinates
equal the claimed normalization `(coordinate + 1) * 65535 / dimension`
(integer multiplication, then truncating integer division) whenever the
products fit the signed 32-bit type in which the code computes them; the
code's arithmetic is 32-bit wrapping, so the formula can fail outside that
range. -/
theorem c9_normalization (x y : Int) (env : WinEnv)
    (hw : env.metricW ≠ 0) (hh : env.metricH ≠ 0)
    (hx1 : -(2 ^ 31) ≤ (x + 1) * 65535) (hx2 : (x + 1) * 65535 < 2 ^ 31)
    (hy1 : -(2 ^ 31) ≤ (y + 1) * 65535) (hy2 : (y + 1) * 65535 < 2 ^ 31) :
    (simulate env (.MouseMove x y)).calls =
      [InputCall.mouse ⟨claimedNormalize x env.metricW,
                        claimedNormalize y env.metricH, 0, moveFlags⟩] := by
  have hx0 : wrap32 (x + 1) = x + 1 := by simp only [wrap32]; omega
  have hy0 : wrap32 (y + 1) = y + 1 := by simp only [wrap32]; omega
  have hx : wrap32 ((x + 1) * 65535) = (x + 1) * 65535 := by
    simp only [wrap32]; omega
  have hy : wrap32 ((y + 1) * 65535) = (y + 1) * 65535 := by
    simp only [wrap32]; omega
  simp only [simulate, claimedNormalize, moveFlags]
  rw [if_neg (by tauto), hx0, hy0, hx, hy]

/-- C9 witness: x = 100, y = 200 on the 1-by-1 screen of `envW`:
101 * 65535 = 6619035 and 201 * 65535 = 13172535. -/
theorem c9_normalization_witness :
    (simulate envW (.MouseMove 100 200)).calls =
      [InputCall.mouse ⟨6619035, 13172535, 0, moveFlags⟩] := by
  have h := c9_normalization 100 200 envW (by decide) (by decide)
    (by decide) (by decide) (by decide) (by decide)
  rw [h]; decide

/-- C7.  When both wheel axes are non-zero (and representable), exactly two
injection calls are issued, the horizontal one first and the vertical one
second; if the horizontal `SendInput` fails the error is returned and the
vertical call is not attempted; a zero horizontal axis issues no horizontal
call and a zero vertical axis issues no vertical call. -/
theorem c7_wheel_order_and_short_circuit :
    (∀ dx dy : Int, ∀ env : WinEnv, dx ≠ 0 → dy ≠ 0 → fitsI16 dx → fitsI16 dy →
       env.sendInput 0 = true →
       simulate env (.Wheel dx dy) =
         ⟨[InputCall.mouse ⟨0, 0, wheelData dx, MOUSEEVENTF_HWHEEL⟩,
           InputCall.mouse ⟨0, 0, wheelData dy, MOUSEEVENTF_WHEEL⟩],
          if env.sendInput 1 then .ok else .simErr⟩) ∧
    (∀ dx dy : Int, ∀ env : WinEnv, dx ≠ 0 → dy ≠ 0 → fitsI16 dx →
       env.sendInput 0 = false →
       simulate env (.Wheel dx dy) =
         ⟨[InputCall.mouse ⟨0, 0, wheelData dx, MOUSEEVENTF_HWHEEL⟩], .simErr⟩) ∧
    (∀ dy : Int, ∀ env : WinEnv, ∀ c ∈ (simulate env (.Wheel 0 dy)).calls,
       isHorizontalWheel c = false) ∧
    (∀ dx : Int, ∀ env : WinEnv, ∀ c ∈ (simulate env (.Wheel dx 0)).calls,
       isVerticalWheel c = false) := by
  refine ⟨?_, ?_, ?_, ?_⟩
  · intro dx dy env h1 h2 h3 h4 h5
    simp only [simulate]
    split_ifs <;> simp_all
  · intro dx dy env h1 h2 h3 h5
    simp only [simulate]
    split_ifs <;> simp_all
  · intro dy env c hc
    simp only [simulate] at hc
    split_ifs at hc <;> simp_all [isHorizontalWheel] <;> decide
  · intro dx env c hc
    simp only [simulate] at hc
    split_ifs at hc <;> simp_all [isVerticalWheel] <;> decide

/-- C7 witness: both axes non-zero in a succeeding environment gives the two
calls in horizontal-vertical order; a failing first `SendInput` returns the
error after only the horizontal call; concrete zero-axis traces contain no
call for the zero axis. -/
theorem c7_wheel_order_and_short_circuit_witness :
    simulate envW (.Wheel 1 2) =
      ⟨[InputCall.mouse ⟨0, 0, 120, MOUSEEVENTF_HWHEEL⟩,
        InputCall.mouse ⟨0, 0, 240, MOUSEEVENTF_WHEEL⟩], .ok⟩ ∧
    simulate envFail (.Wheel 1 2) =
      ⟨[InputCall.mouse ⟨0, 0, 120, MOUSEEVENTF_HWHEEL⟩], .simErr⟩ ∧
    isHorizontalWheel (InputCall.mouse ⟨0, 0, 240, MOUSEEVENTF_WHEEL⟩) = false ∧
    isVerticalWheel (InputCall.mouse ⟨0, 0, 120, MOUSEEVENTF_HWHEEL⟩) = false := by
  refine ⟨?_, ?_, ?_, ?_⟩
  · have h := c7_wheel_order_and_short_circuit.1 1 2 envW
      (by decide) (by decide) (by decide) (by decide) rfl
    rw [h]; decide
  · have h := c7_wheel_order_and_short_circuit.2.1 1 2 envFail
      (by decide) (by decide) (by decide) rfl
    rw [h]; decide
  · exact c7_wheel_order_and_short_circuit.2.2.1 2 envW
      (InputCall.mouse ⟨0, 0, 240, MOUSEEVENTF_WHEEL⟩) (by decide)
  · exact c7_wheel_order_and_short_circuit.2.2.2 1 envW
      (InputCall.mouse ⟨0, 0, 120, MOUSEEVENTF_HWHEEL⟩) (by decide)

/-- C10.  Key press/release events convert the resolved virtual code to the
16-bit native field with an unwrapped checked conversion: a resolved code
that does not fit 16 bits makes `simulate` panic (no call, no
`SimulateError`), and one that fits never panics; wheel, button, and
mouse-move events never panic — their outcome is always `Ok` or
`Err(SimulateError)`. -/
theorem c10_panic_profile (env : WinEnv) :
    (∀ key, 2 ^ 16 ≤ keyPressCode env key →
       simulate env (.KeyPress key) = ⟨[], .panicked⟩) ∧
    (∀ key, 2 ^ 16 ≤ keyReleaseCode env key →
       simulate env (.KeyRelease key) = ⟨[], .panicked⟩) ∧
    (∀ key, keyPressCode env key < 2 ^ 16 →
       (simulate env (.KeyPress key)).outcome ≠ .panicked) ∧
    (∀ key, keyReleaseCode env key < 2 ^ 16 →
       (simulate env (.KeyRelease key)).outcome ≠ .panicked) ∧
    (∀ dx dy : Int, (simulate env (.Wheel dx dy)).outcome = .ok ∨
       (simulate env (.Wheel dx dy)).outcome = .simErr) ∧
    (∀ b, ((simulate env (.ButtonPress b)).outcome = .ok ∨
           (simulate env (.ButtonPress b)).outcome = .simErr) ∧
          ((simulate env (.ButtonRelease b)).outcome = .ok ∨
           (simulate env (.ButtonRelease b)).outcome = .simErr)) ∧
    (∀ x y : Int, (simulate env (.MouseMove x y)).outcome = .ok ∨
       (simulate env (.MouseMove x y)).outcome = .simErr) := by
  refine ⟨?_, ?_, ?_, ?_, ?_, ?_, ?_⟩
  · intro key h
    simp only [simulate, keyLeg, if_neg (not_lt.mpr h)]
  · intro key h
    simp only [simulate, keyLeg, if_neg (not_lt.mpr h)]
  · intro key h
    simp only [simulate, keyLeg, if_pos h]
    cases hs : env.sendInput 0 <;> simp [hs]
  · intro key h
    simp only [simulate, keyLeg, if_pos h]
    cases hs : env.sendInput 0 <;> simp [hs]
  · intro dx dy
    simp only [simulate]
    split_ifs <;> simp_all
  · intro b
    cases b <;> constructor <;> simp only [simulate] <;>
      cases hs : env.sendInput 0 <;> simp [hs]
  · intro x y
    simp only [simulate]
    split_ifs <;> simp_all

/-- C10 witness: a tabulated code of 2^16 panics on press and release; the
resolved code 6 of `envW` does not panic; concrete wheel, button, and
mouse-move invocations end in `Ok` or `Err`. -/
theorem c10_panic_profile_witness :
    simulate envBig (.KeyPress .KeyA) = ⟨[], .panicked⟩ ∧
    simulate envBig (.KeyRelease .KeyA) = ⟨[], .panicked⟩ ∧
    (simulate envW (.KeyPress .KeyA)).outcome ≠ .panicked ∧
    (simulate envW (.KeyRelease .KeyA)).outcome ≠ .panicked ∧
    ((simulate envW (.Wheel 3 0)).outcome = .ok ∨
      (simulate envW (.Wheel 3 0)).outcome = .simErr) ∧
    ((simulate envW (.ButtonPress .Left)).outcome = .ok ∨
      (simulate envW (.ButtonPress .Left)).outcome = .simErr) ∧
    ((simulate envW (.MouseMove 1 2)).outcome = .ok ∨
      (simulate envW (.MouseMove 1 2)).outcome = .simErr) :=
  ⟨(c10_panic_profile envBig).1 .KeyA (by decide),
   (c10_panic_profile envBig).2.1 .KeyA (by decide),
   (c10_panic_profile envW).2.2.1 .KeyA (by decide),
   (c10_panic_profile envW).2.2.2.1 .KeyA (by decide),
   (c10_panic_profile envW).2.2.2.2.1 3 0,
   ((c10_panic_profile envW).2.2.2.2.2.1 .Left).1,
   (c10_panic_profile envW).2.2.2.2.2.2 1 2⟩

end Rdev
